import Mathlib

/-!
# Guardium: the vault login controller (`src/components/Login.js`)

A shallow embedding of the `Login` component: its hook state, the `init`
effect, the handlers `handleCreateVault`, `handleUnlock`, `handleAuth`, the
part of the rendered form that gates the action button, and the trace of
adapter calls and timers a handler run leaves behind.

Modelling conventions.
* A handler run is sequential: every `await` is followed to completion, so each
  adapter call settles, either resolving with a value or rejecting with an error.
* The handler closes over the hook values of the render it was created in
  (`password`, `confirmPassword`, `vaultExists`); the `set...` calls update the
  state the next render sees.
* `setTimeout(f, ms)` is recorded in the trace as a scheduled timer, not run.
-/

namespace Guardium

/-! ## Data model -/

/-- Number of UTF-16 code units of a string: what `length` of a JavaScript string
counts. Strings are well-formed Unicode, so `!==` on them is inequality of `String`. -/
def jsLength (s : String) : Nat :=
  (s.data.map fun c => if c.toNat < 65536 then 1 else 2).sum

/-- A thrown JavaScript `Error`; the handlers read nothing but its `message`. -/
structure JsError where
  message : String
deriving DecidableEq, Repr

/-- Outcome of awaiting an adapter promise: resolved with a value or rejected with an error. -/
abbrev Res (α : Type) := Except JsError α

/-- The decrypted vault payload; `{ accounts: [] }` is the record with no account. -/
structure VaultRecord (Account : Type) where
  accounts : List Account
deriving DecidableEq, Repr

/-- The nine `useState` hooks of `Login` (lines 8-16). -/
structure LoginState where
  password : String
  confirmPassword : String
  vaultExists : Bool
  loading : Bool
  status : String
  showPassword : Bool
  processing : Bool
  toastMessage : String
  toastType : String
deriving DecidableEq, Repr

/-- The initial values passed to `useState` (lines 8-16). -/
def initialState : LoginState :=
  { password := ""
    confirmPassword := ""
    vaultExists := false
    loading := true
    status := "Initializing..."
    showPassword := false
    processing := false
    toastMessage := ""
    toastType := "error" }

/-- Modelled from the spec: the six adapters imported from `../utils/storage`,
`../utils/CryptoService` and `../utils/web3Service` (lines 2-4) are not part of the
source; their signatures follow the external-interface table. Each runs on a world
`W` (storage and integrity ledger), settles with `Res`, and returns the new world.
`loadVault` resolves to a blob or to the absent value (`none`, the falsy
`null`/`undefined`); `verifyVault` resolves to a boolean. Arguments that the
handlers may pass as absent (`encryptedVault` of `handleUnlock`) are `Option Blob`. -/
structure Adapters (W Blob Account : Type) where
  loadVault : W → Res (Option Blob) × W
  saveVault : Blob → W → Res Unit × W
  encryptVault : VaultRecord Account → String → W → Res Blob × W
  decryptVault : Option Blob → String → W → Res (VaultRecord Account) × W
  verifyVault : Option Blob → W → Res Bool × W
  writeVaultHash : Blob → W → Res Unit × W

/-- What a `setTimeout` callback of the component does when it fires. -/
inductive TimerAction (Account : Type) where
  | clearToast
  | onUnlock (vault : VaultRecord Account) (password : String)
deriving DecidableEq, Repr

/-- One observable effect of a handler run: an adapter call together with how it
settled, or a scheduled timer. -/
inductive Event (Blob Account : Type) where
  | loadVault (result : Res (Option Blob))
  | verifyVault (blob : Option Blob) (result : Res Bool)
  | decryptVault (blob : Option Blob) (password : String) (result : Res (VaultRecord Account))
  | encryptVault (vault : VaultRecord Account) (password : String) (result : Res Blob)
  | saveVault (blob : Blob) (result : Res Unit)
  | writeVaultHash (blob : Blob) (result : Res Unit)
  | setTimeout (action : TimerAction Account) (ms : Nat)

/-- The component state, the adapters' world, and the effects so far, in order. -/
structure Sys (W Blob Account : Type) where
  ui : LoginState
  world : W
  trace : List (Event Blob Account)

section Handlers

variable {W Blob Account : Type}

/-! ## Hook setters and adapter calls -/

def setPassword (v : String) (σ : Sys W Blob Account) : Sys W Blob Account :=
  { σ with ui := { σ.ui with password := v } }

def setVaultExists (v : Bool) (σ : Sys W Blob Account) : Sys W Blob Account :=
  { σ with ui := { σ.ui with vaultExists := v } }

def setLoading (v : Bool) (σ : Sys W Blob Account) : Sys W Blob Account :=
  { σ with ui := { σ.ui with loading := v } }

def setStatus (v : String) (σ : Sys W Blob Account) : Sys W Blob Account :=
  { σ with ui := { σ.ui with status := v } }

def setProcessing (v : Bool) (σ : Sys W Blob Account) : Sys W Blob Account :=
  { σ with ui := { σ.ui with processing := v } }

/-- The global `setTimeout`: the callback is recorded with its delay. -/
def setTimeout (action : TimerAction Account) (ms : Nat) (σ : Sys W Blob Account) :
    Sys W Blob Account :=
  { σ with trace := σ.trace ++ [Event.setTimeout action ms] }

/-- Lines 18-22. The source's default `type = "error"` is passed explicitly by the callers. -/
def showToast (msg : String) (type : String) (σ : Sys W Blob Account) : Sys W Blob Account :=
  setTimeout TimerAction.clearToast 3000
    { σ with ui := { σ.ui with toastMessage := msg, toastType := type } }

def callLoadVault (A : Adapters W Blob Account) (σ : Sys W Blob Account) :
    Res (Option Blob) × Sys W Blob Account :=
  let r := A.loadVault σ.world
  (r.1, { σ with world := r.2, trace := σ.trace ++ [Event.loadVault r.1] })

def callVerifyVault (A : Adapters W Blob Account) (blob : Option Blob) (σ : Sys W Blob Account) :
    Res Bool × Sys W Blob Account :=
  let r := A.verifyVault blob σ.world
  (r.1, { σ with world := r.2, trace := σ.trace ++ [Event.verifyVault blob r.1] })

def callDecryptVault (A : Adapters W Blob Account) (blob : Option Blob) (password : String)
    (σ : Sys W Blob Account) : Res (VaultRecord Account) × Sys W Blob Account :=
  let r := A.decryptVault blob password σ.world
  (r.1, { σ with world := r.2, trace := σ.trace ++ [Event.decryptVault blob password r.1] })

def callEncryptVault (A : Adapters W Blob Account) (vault : VaultRecord Account)
    (password : String) (σ : Sys W Blob Account) : Res Blob × Sys W Blob Account :=
  let r := A.encryptVault vault password σ.world
  (r.1, { σ with world := r.2, trace := σ.trace ++ [Event.encryptVault vault password r.1] })

def callSaveVault (A : Adapters W Blob Account) (blob : Blob) (σ : Sys W Blob Account) :
    Res Unit × Sys W Blob Account :=
  let r := A.saveVault blob σ.world
  (r.1, { σ with world := r.2, trace := σ.trace ++ [Event.saveVault blob r.1] })

def callWriteVaultHash (A : Adapters W Blob Account) (blob : Blob) (σ : Sys W Blob Account) :
    Res Unit × Sys W Blob Account :=
  let r := A.writeVaultHash blob σ.world
  (r.1, { σ with world := r.2, trace := σ.trace ++ [Event.writeVaultHash blob r.1] })

/-! ## The `init` effect (lines 24-37) -/

/-- The `init` function run once by `useEffect`: `try` / `catch` / `finally`. -/
def init (A : Adapters W Blob Account) (s : LoginState) (w : W) : Sys W Blob Account :=
  let σ : Sys W Blob Account := { ui := s, world := w, trace := [] }
  let σ1 :=
    match callLoadVault A σ with
    | (Except.ok vault, σ2) =>
      setStatus (if vault.isSome then "Welcome back!" else "Create your first vault")
        (setVaultExists vault.isSome σ2)
    | (Except.error _, σ2) => setStatus "Something went wrong" σ2
  setLoading false σ1

/-! ## `handleCreateVault` (lines 39-64) -/

/-- The `try` block of `handleCreateVault` (lines 52-57): the first rejected
`await` leaves the block with its error. -/
def createBody (A : Adapters W Blob Account) (password : String) (σ : Sys W Blob Account) :
    Res Unit × Sys W Blob Account :=
  let emptyVault : VaultRecord Account := { accounts := [] }
  match callEncryptVault A emptyVault password σ with
  | (Except.error err, σ1) => (Except.error err, σ1)
  | (Except.ok encrypted, σ1) =>
    match callSaveVault A encrypted σ1 with
    | (Except.error err, σ2) => (Except.error err, σ2)
    | (Except.ok _, σ2) =>
      match callWriteVaultHash A encrypted σ2 with
      | (Except.error err, σ3) => (Except.error err, σ3)
      | (Except.ok _, σ3) =>
        (Except.ok (),
          setTimeout (TimerAction.onUnlock emptyVault password) 800
            (showToast "Vault created successfully!" "success" σ3))

def handleCreateVault (A : Adapters W Blob Account) (s : LoginState) (w : W) :
    Sys W Blob Account :=
  let σ : Sys W Blob Account := { ui := s, world := w, trace := [] }
  if jsLength s.password < 8 then
    showToast "Password must be at least 8 characters" "warning" σ
  else if s.password ≠ s.confirmPassword then
    showToast "Passwords do not match" "error" σ
  else
    let σ1 := setStatus "Setting things up..." (setProcessing true σ)
    let σ2 :=
      match createBody A s.password σ1 with
      | (Except.ok _, σ3) => σ3
      | (Except.error err, σ3) =>
        setStatus "Create Master Password"
          (showToast ("Creation failed: " ++ err.message) "error" σ3)
    setProcessing false σ2

/-! ## `handleUnlock` (lines 66-88) -/

/-- The `try` block of `handleUnlock` (lines 75-80). -/
def unlockBody (A : Adapters W Blob Account) (password : String) (σ : Sys W Blob Account) :
    Res Unit × Sys W Blob Account :=
  match callLoadVault A σ with
  | (Except.error err, σ1) => (Except.error err, σ1)
  | (Except.ok encryptedVault, σ1) =>
    match callVerifyVault A encryptedVault σ1 with
    | (Except.error err, σ2) => (Except.error err, σ2)
    | (Except.ok verified, σ2) =>
      if !verified then (Except.error { message := "Integrity check failed" }, σ2)
      else
        match callDecryptVault A encryptedVault password σ2 with
        | (Except.error err, σ3) => (Except.error err, σ3)
        | (Except.ok decrypted, σ3) =>
          (Except.ok (),
            setTimeout (TimerAction.onUnlock decrypted password) 800
              (showToast "Vault unlocked!" "success" σ3))

def handleUnlock (A : Adapters W Blob Account) (s : LoginState) (w : W) : Sys W Blob Account :=
  let σ : Sys W Blob Account := { ui := s, world := w, trace := [] }
  if jsLength s.password < 8 then
    showToast "Password must be at least 8 characters" "warning" σ
  else
    let σ1 := setStatus "Verifying..." (setProcessing true σ)
    let σ2 :=
      match unlockBody A s.password σ1 with
      | (Except.ok _, σ3) => σ3
      | (Except.error _, σ3) =>
        setStatus "Unlock your Vault" (setPassword "" (showToast "Wrong password" "error" σ3))
    setProcessing false σ2

/-! ## `handleAuth` and the rendered form (lines 90-196) -/

/-- Lines 90-92. -/
def handleAuth (A : Adapters W Blob Account) (s : LoginState) (w : W) : Sys W Blob Account :=
  if s.vaultExists then handleUnlock A s w else handleCreateVault A s w

/-- Lines 94-95. -/
def isPasswordValid (s : LoginState) : Bool :=
  decide (8 ≤ jsLength s.password) && (s.vaultExists || decide (s.password = s.confirmPassword))

/-- The parts of the rendered form (lines 105-195) that carry state: heading, status
line, which inputs are present and enabled, the action button and the mode toggle. -/
structure FormView where
  title : String
  status : String
  inputsDisabled : Bool
  confirmShown : Bool
  mismatchShown : Bool
  actionDisabled : Bool
  actionLabel : String
  toggleShown : Bool
  toast : Option (String × String)
deriving DecidableEq, Repr

/-- What the component returns: `none` is the spinner shown while `loading` (lines 97-103). -/
def render (s : LoginState) : Option FormView :=
  if s.loading then none
  else some
    { title := if s.vaultExists then "Welcome back!" else "New Vault"
      status := s.status
      inputsDisabled := s.processing
      confirmShown := !s.vaultExists
      mismatchShown :=
        !s.vaultExists && decide (0 < jsLength s.confirmPassword)
          && decide (s.password ≠ s.confirmPassword)
      actionDisabled := s.processing || !isPasswordValid s
      actionLabel :=
        if s.processing then "please wait..." else if s.vaultExists then "unlock" else "create"
      toggleShown := !s.processing
      toast := if s.toastMessage = "" then none else some (s.toastMessage, s.toastType) }

/-- A click on the action button (lines 164-166): `onClick={handleAuth}` fires only
when the button is rendered and not `disabled`. -/
def clickAction (A : Adapters W Blob Account) (s : LoginState) (w : W) : Sys W Blob Account :=
  match render s with
  | none => { ui := s, world := w, trace := [] }
  | some v =>
    if v.actionDisabled then { ui := s, world := w, trace := [] } else handleAuth A s w

/-- Typing into the password input (line 118), possible while the input is enabled. -/
def typePassword (v : String) (s : LoginState) : LoginState :=
  { s with password := v }

/-- Typing into the confirmation input (line 137). -/
def typeConfirmPassword (v : String) (s : LoginState) : LoginState :=
  { s with confirmPassword := v }

/-- A click on the mode toggle (lines 177-185), rendered while not `processing`. -/
def toggleMode (s : LoginState) : LoginState :=
  { s with vaultExists := !s.vaultExists, password := "", confirmPassword := "",
           status := if s.vaultExists then "Create Master Password" else "Unlock your Vault" }

/-! ## Reading a trace -/

def Event.isAdapterCall : Event Blob Account → Bool
  | Event.setTimeout _ _ => false
  | _ => true

/-- The adapter calls of a trace, in order. -/
def adapterCalls (t : List (Event Blob Account)) : List (Event Blob Account) :=
  t.filter Event.isAdapterCall

/-- The scheduled `onUnlock(vault, password)` hand-offs of a trace, in order. -/
def handoffs (t : List (Event Blob Account)) : List (VaultRecord Account × String) :=
  t.filterMap fun e =>
    match e with
    | Event.setTimeout (TimerAction.onUnlock v p) _ => some (v, p)
    | _ => none

/-- The timers of a trace, in order: the effects the caller can see besides the state. -/
def timers (t : List (Event Blob Account)) : List (TimerAction Account × Nat) :=
  t.filterMap fun e =>
    match e with
    | Event.setTimeout a ms => some (a, ms)
    | _ => none

/-- What the presentation layer can observe of a run: the hook state and the timers. -/
def visible (σ : Sys W Blob Account) : LoginState × List (TimerAction Account × Nat) :=
  (σ.ui, timers σ.trace)

end Handlers

/-! ## Adapters that behave consistently, and a reference instance -/

/-- Adapters that behave consistently, seen through two observations of the world,
the blob storage holds and the blob the integrity ledger attests:
`loadVault` resolves to the stored blob and changes neither observation; a
successful `saveVault` makes its argument the stored blob; a successful
`writeVaultHash` makes its argument the attested blob and leaves storage alone;
`verifyVault` resolves to `true` on the attested blob; and `decryptVault` opens,
with the same passphrase, whatever `encryptVault` produced. -/
structure Consistent {W Blob Account : Type} (A : Adapters W Blob Account)
    (stored attested : W → Option Blob) : Prop where
  load_stored : ∀ w, (A.loadVault w).1 = Except.ok (stored w)
  load_frame : ∀ w, stored (A.loadVault w).2 = stored w ∧ attested (A.loadVault w).2 = attested w
  save_stored : ∀ b w, (A.saveVault b w).1 = Except.ok () → stored (A.saveVault b w).2 = some b
  attest_attested : ∀ b w,
    (A.writeVaultHash b w).1 = Except.ok () → attested (A.writeVaultHash b w).2 = some b
  attest_frame : ∀ b w, stored (A.writeVaultHash b w).2 = stored w
  verify_attested : ∀ b w, attested w = some b → (A.verifyVault (some b) w).1 = Except.ok true
  decrypt_encrypt : ∀ r p b w,
    (A.encryptVault r p w).1 = Except.ok b → ∀ w2, (A.decryptVault (some b) p w2).1 = Except.ok r

/-- A toy ciphertext: the record together with the passphrase that sealed it. -/
structure MemBlob where
  content : VaultRecord String
  key : String
deriving DecidableEq, Repr

/-- The world of the reference adapters: one storage slot and one attested blob. -/
structure MemWorld where
  stored : Option MemBlob
  attested : Option MemBlob
deriving DecidableEq, Repr

/-- Reference adapters over `MemWorld`, used to run the handlers on concrete inputs:
storage is one slot, the ledger remembers the attested blob, and decryption
rejects a passphrase other than the sealing one. -/
def memAdapters : Adapters MemWorld MemBlob String where
  loadVault := fun w => (Except.ok w.stored, w)
  saveVault := fun b w => (Except.ok (), { w with stored := some b })
  encryptVault := fun r p w => (Except.ok { content := r, key := p }, w)
  decryptVault := fun b p w =>
    match b with
    | some c =>
      if c.key = p then (Except.ok c.content, w)
      else (Except.error { message := "OperationError" }, w)
    | none => (Except.error { message := "Cannot read properties of null" }, w)
  verifyVault := fun b w => (Except.ok (b.isSome && decide (b = w.attested)), w)
  writeVaultHash := fun b w => (Except.ok (), { w with attested := some b })

/-- The reference world with nothing stored and nothing attested. -/
def emptyWorld : MemWorld := { stored := none, attested := none }

/-- The reference adapters with a storage read that rejects with the given message. -/
def loadFailing (msg : String) : Adapters MemWorld MemBlob String :=
  { memAdapters with loadVault := fun w => (Except.error { message := msg }, w) }

/-- The reference adapters with an integrity ledger that rejects every write. -/
def attestFailing (msg : String) : Adapters MemWorld MemBlob String :=
  { memAdapters with writeVaultHash := fun _ w => (Except.error { message := msg }, w) }

/-- The world left by creating a vault with passphrase `correcthorse1` on the reference adapters. -/
def vaultWorld : MemWorld :=
  { stored := some { content := { accounts := [] }, key := "correcthorse1" }
    attested := some { content := { accounts := [] }, key := "correcthorse1" } }

/-- The form in create mode: `init` found no vault, then both fields were typed. -/
def emptyForm (password confirmPassword : String) : LoginState :=
  typeConfirmPassword confirmPassword
    (typePassword password (init memAdapters initialState emptyWorld).ui)

/-- The form in unlock mode: `init` found a vault, then the password was typed. -/
def lockedForm (password : String) : LoginState :=
  typePassword password (init memAdapters initialState vaultWorld).ui

/-- The reference world after the stored blob was replaced behind the ledger's back. -/
def tamperedWorld : MemWorld :=
  { vaultWorld with stored := some { content := { accounts := ["mallory"] }, key := "correcthorse1" } }

/-- The form while an unlock is awaiting its adapters: the state after lines 72-73. -/
def unlockingForm (password : String) : LoginState :=
  (setStatus "Verifying..."
    (setProcessing true
      ({ ui := lockedForm password, world := vaultWorld, trace := [] } :
        Sys MemWorld MemBlob String))).ui

/-- The protocol the form offers: none while the spinner shows (lines 97-103),
otherwise the one `handleAuth` dispatches to on `vaultExists` (line 91). -/
inductive Mode where
  | uninitialized
  | empty
  | locked
deriving DecidableEq, Repr

def mode (s : LoginState) : Mode :=
  if s.loading then Mode.uninitialized
  else if s.vaultExists then Mode.locked else Mode.empty

section TraceOrder

variable {Blob Account : Type}

def Event.isSave : Event Blob Account → Bool
  | Event.saveVault _ _ => true
  | _ => false

def Event.savedOk : Event Blob Account → Bool
  | Event.saveVault _ (Except.ok _) => true
  | _ => false

def Event.encryptedOk : Event Blob Account → Bool
  | Event.encryptVault _ _ (Except.ok _) => true
  | _ => false

def Event.isAttest : Event Blob Account → Bool
  | Event.writeVaultHash _ _ => true
  | _ => false

def Event.attestedOk : Event Blob Account → Bool
  | Event.writeVaultHash _ (Except.ok _) => true
  | _ => false

/-- Whether every event of the trace satisfying `q` comes after an event satisfying
`p`; `seen` tells that such an event occurred before the trace began. -/
def precededFrom (p q : Event Blob Account → Bool) (seen : Bool) :
    List (Event Blob Account) → Bool
  | [] => true
  | e :: es => (!q e || seen) && precededFrom p q (seen || p e) es

/-- Whether in `t` every `q` event is preceded by a `p` event. -/
def eachPrecededBy (p q : Event Blob Account → Bool) (t : List (Event Blob Account)) : Bool :=
  precededFrom p q false t

end TraceOrder

/-- A fresh component over the world a run left behind: the hooks start from their
initial values and the `init` effect runs. -/
def reopen {W Blob Account : Type} (A : Adapters W Blob Account) (σ : Sys W Blob Account) :
    Sys W Blob Account :=
  init A initialState σ.world

/-- The passphrase is typed into the form a run left behind and submitted through `handleAuth`. -/
def resubmit {W Blob Account : Type} (A : Adapters W Blob Account) (password : String)
    (σ : Sys W Blob Account) : Sys W Blob Account :=
  handleAuth A (typePassword password σ.ui) σ.world

/-! ## How each run ends: one lemma per path through a handler -/

section Paths

variable {W Blob Account : Type}

theorem create_too_short (A : Adapters W Blob Account) (s : LoginState) (w : W)
    (h : jsLength s.password < 8) :
    handleCreateVault A s w =
      { ui := { s with toastMessage := "Password must be at least 8 characters",
                       toastType := "warning" },
        world := w,
        trace := [Event.setTimeout TimerAction.clearToast 3000] } := by
  simp [handleCreateVault, h, showToast, setTimeout]

theorem unlock_too_short (A : Adapters W Blob Account) (s : LoginState) (w : W)
    (h : jsLength s.password < 8) :
    handleUnlock A s w =
      { ui := { s with toastMessage := "Password must be at least 8 characters",
                       toastType := "warning" },
        world := w,
        trace := [Event.setTimeout TimerAction.clearToast 3000] } := by
  simp [handleUnlock, h, showToast, setTimeout]

theorem create_mismatch (A : Adapters W Blob Account) (s : LoginState) (w : W)
    (h8 : 8 ≤ jsLength s.password) (hne : s.password ≠ s.confirmPassword) :
    handleCreateVault A s w =
      { ui := { s with toastMessage := "Passwords do not match", toastType := "error" },
        world := w,
        trace := [Event.setTimeout TimerAction.clearToast 3000] } := by
  have h8n : ¬ jsLength s.password < 8 := by omega
  simp [handleCreateVault, h8n, hne, showToast, setTimeout]

theorem create_encrypt_error (A : Adapters W Blob Account) (s : LoginState) (w w1 : W)
    (e : JsError) (h8 : 8 ≤ jsLength s.password) (heq : s.password = s.confirmPassword)
    (he : A.encryptVault { accounts := [] } s.password w = (Except.error e, w1)) :
    handleCreateVault A s w =
      { ui := { s with processing := false, status := "Create Master Password",
                       toastMessage := "Creation failed: " ++ e.message, toastType := "error" },
        world := w1,
        trace := [Event.encryptVault { accounts := [] } s.password (Except.error e),
                  Event.setTimeout TimerAction.clearToast 3000] } := by
  have h8n : ¬ jsLength s.password < 8 := by omega
  simp [handleCreateVault, createBody, callEncryptVault, h8n, heq.symm, he, showToast,
    setTimeout, setStatus, setProcessing]

theorem create_save_error (A : Adapters W Blob Account) (s : LoginState) (w w1 w2 : W)
    (e : JsError) (b : Blob) (h8 : 8 ≤ jsLength s.password)
    (heq : s.password = s.confirmPassword)
    (he : A.encryptVault { accounts := [] } s.password w = (Except.ok b, w1))
    (hs : A.saveVault b w1 = (Except.error e, w2)) :
    handleCreateVault A s w =
      { ui := { s with processing := false, status := "Create Master Password",
                       toastMessage := "Creation failed: " ++ e.message, toastType := "error" },
        world := w2,
        trace := [Event.encryptVault { accounts := [] } s.password (Except.ok b),
                  Event.saveVault b (Except.error e),
                  Event.setTimeout TimerAction.clearToast 3000] } := by
  have h8n : ¬ jsLength s.password < 8 := by omega
  simp [handleCreateVault, createBody, callEncryptVault, callSaveVault, h8n, heq.symm, he, hs,
    showToast, setTimeout, setStatus, setProcessing]

theorem create_attest_error (A : Adapters W Blob Account) (s : LoginState) (w w1 w2 w3 : W)
    (e : JsError) (b : Blob) (h8 : 8 ≤ jsLength s.password)
    (heq : s.password = s.confirmPassword)
    (he : A.encryptVault { accounts := [] } s.password w = (Except.ok b, w1))
    (hs : A.saveVault b w1 = (Except.ok (), w2))
    (ha : A.writeVaultHash b w2 = (Except.error e, w3)) :
    handleCreateVault A s w =
      { ui := { s with processing := false, status := "Create Master Password",
                       toastMessage := "Creation failed: " ++ e.message, toastType := "error" },
        world := w3,
        trace := [Event.encryptVault { accounts := [] } s.password (Except.ok b),
                  Event.saveVault b (Except.ok ()),
                  Event.writeVaultHash b (Except.error e),
                  Event.setTimeout TimerAction.clearToast 3000] } := by
  have h8n : ¬ jsLength s.password < 8 := by omega
  simp [handleCreateVault, createBody, callEncryptVault, callSaveVault, callWriteVaultHash, h8n,
    heq.symm, he, hs, ha, showToast, setTimeout, setStatus, setProcessing]

theorem create_ok (A : Adapters W Blob Account) (s : LoginState) (w w1 w2 w3 : W)
    (b : Blob) (h8 : 8 ≤ jsLength s.password) (heq : s.password = s.confirmPassword)
    (he : A.encryptVault { accounts := [] } s.password w = (Except.ok b, w1))
    (hs : A.saveVault b w1 = (Except.ok (), w2))
    (ha : A.writeVaultHash b w2 = (Except.ok (), w3)) :
    handleCreateVault A s w =
      { ui := { s with processing := false, status := "Setting things up...",
                       toastMessage := "Vault created successfully!", toastType := "success" },
        world := w3,
        trace := [Event.encryptVault { accounts := [] } s.password (Except.ok b),
                  Event.saveVault b (Except.ok ()),
                  Event.writeVaultHash b (Except.ok ()),
                  Event.setTimeout TimerAction.clearToast 3000,
                  Event.setTimeout (TimerAction.onUnlock { accounts := [] } s.password) 800] } := by
  have h8n : ¬ jsLength s.password < 8 := by omega
  simp [handleCreateVault, createBody, callEncryptVault, callSaveVault, callWriteVaultHash, h8n,
    heq.symm, he, hs, ha, showToast, setTimeout, setStatus, setProcessing]

theorem unlock_load_error (A : Adapters W Blob Account) (s : LoginState) (w w1 : W)
    (e : JsError) (h8 : 8 ≤ jsLength s.password)
    (hl : A.loadVault w = (Except.error e, w1)) :
    handleUnlock A s w =
      { ui := { s with processing := false, status := "Unlock your Vault", password := "",
                       toastMessage := "Wrong password", toastType := "error" },
        world := w1,
        trace := [Event.loadVault (Except.error e),
                  Event.setTimeout TimerAction.clearToast 3000] } := by
  have h8n : ¬ jsLength s.password < 8 := by omega
  simp [handleUnlock, unlockBody, callLoadVault, h8n, hl, showToast, setTimeout, setStatus,
    setPassword, setProcessing]

theorem unlock_verify_error (A : Adapters W Blob Account) (s : LoginState) (w w1 w2 : W)
    (e : JsError) (blob : Option Blob) (h8 : 8 ≤ jsLength s.password)
    (hl : A.loadVault w = (Except.ok blob, w1))
    (hv : A.verifyVault blob w1 = (Except.error e, w2)) :
    handleUnlock A s w =
      { ui := { s with processing := false, status := "Unlock your Vault", password := "",
                       toastMessage := "Wrong password", toastType := "error" },
        world := w2,
        trace := [Event.loadVault (Except.ok blob),
                  Event.verifyVault blob (Except.error e),
                  Event.setTimeout TimerAction.clearToast 3000] } := by
  have h8n : ¬ jsLength s.password < 8 := by omega
  simp [handleUnlock, unlockBody, callLoadVault, callVerifyVault, h8n, hl, hv, showToast,
    setTimeout, setStatus, setPassword, setProcessing]

theorem unlock_verify_false (A : Adapters W Blob Account) (s : LoginState) (w w1 w2 : W)
    (blob : Option Blob) (h8 : 8 ≤ jsLength s.password)
    (hl : A.loadVault w = (Except.ok blob, w1))
    (hv : A.verifyVault blob w1 = (Except.ok false, w2)) :
    handleUnlock A s w =
      { ui := { s with processing := false, status := "Unlock your Vault", password := "",
                       toastMessage := "Wrong password", toastType := "error" },
        world := w2,
        trace := [Event.loadVault (Except.ok blob),
                  Event.verifyVault blob (Except.ok false),
                  Event.setTimeout TimerAction.clearToast 3000] } := by
  have h8n : ¬ jsLength s.password < 8 := by omega
  simp [handleUnlock, unlockBody, callLoadVault, callVerifyVault, h8n, hl, hv, showToast,
    setTimeout, setStatus, setPassword, setProcessing]

theorem unlock_decrypt_error (A : Adapters W Blob Account) (s : LoginState) (w w1 w2 w3 : W)
    (e : JsError) (blob : Option Blob) (h8 : 8 ≤ jsLength s.password)
    (hl : A.loadVault w = (Except.ok blob, w1))
    (hv : A.verifyVault blob w1 = (Except.ok true, w2))
    (hd : A.decryptVault blob s.password w2 = (Except.error e, w3)) :
    handleUnlock A s w =
      { ui := { s with processing := false, status := "Unlock your Vault", password := "",
                       toastMessage := "Wrong password", toastType := "error" },
        world := w3,
        trace := [Event.loadVault (Except.ok blob),
                  Event.verifyVault blob (Except.ok true),
                  Event.decryptVault blob s.password (Except.error e),
                  Event.setTimeout TimerAction.clearToast 3000] } := by
  have h8n : ¬ jsLength s.password < 8 := by omega
  simp [handleUnlock, unlockBody, callLoadVault, callVerifyVault, callDecryptVault, h8n, hl, hv,
    hd, showToast, setTimeout, setStatus, setPassword, setProcessing]

theorem unlock_ok (A : Adapters W Blob Account) (s : LoginState) (w w1 w2 w3 : W)
    (r : VaultRecord Account) (blob : Option Blob) (h8 : 8 ≤ jsLength s.password)
    (hl : A.loadVault w = (Except.ok blob, w1))
    (hv : A.verifyVault blob w1 = (Except.ok true, w2))
    (hd : A.decryptVault blob s.password w2 = (Except.ok r, w3)) :
    handleUnlock A s w =
      { ui := { s with processing := false, status := "Verifying...",
                       toastMessage := "Vault unlocked!", toastType := "success" },
        world := w3,
        trace := [Event.loadVault (Except.ok blob),
                  Event.verifyVault blob (Except.ok true),
                  Event.decryptVault blob s.password (Except.ok r),
                  Event.setTimeout TimerAction.clearToast 3000,
                  Event.setTimeout (TimerAction.onUnlock r s.password) 800] } := by
  have h8n : ¬ jsLength s.password < 8 := by omega
  simp [handleUnlock, unlockBody, callLoadVault, callVerifyVault, callDecryptVault, h8n, hl, hv,
    hd, showToast, setTimeout, setStatus, setPassword, setProcessing]

theorem init_resolved (A : Adapters W Blob Account) (s : LoginState) (w w1 : W)
    (vault : Option Blob) (hl : A.loadVault w = (Except.ok vault, w1)) :
    init A s w =
      { ui := { s with vaultExists := vault.isSome,
                       status := if vault.isSome then "Welcome back!"
                                 else "Create your first vault",
                       loading := false },
        world := w1,
        trace := [Event.loadVault (Except.ok vault)] } := by
  simp [init, callLoadVault, hl, setStatus, setVaultExists, setLoading]

theorem init_rejected (A : Adapters W Blob Account) (s : LoginState) (w w1 : W)
    (e : JsError) (hl : A.loadVault w = (Except.error e, w1)) :
    init A s w =
      { ui := { s with status := "Something went wrong", loading := false },
        world := w1,
        trace := [Event.loadVault (Except.error e)] } := by
  simp [init, callLoadVault, hl, setStatus, setLoading]

theorem memAdapters_consistent :
    Consistent memAdapters MemWorld.stored MemWorld.attested where
  load_stored := fun _ => rfl
  load_frame := fun _ => ⟨rfl, rfl⟩
  save_stored := fun _ _ _ => rfl
  attest_attested := fun _ _ _ => rfl
  attest_frame := fun _ _ => rfl
  verify_attested := by
    intro b w h
    simp [memAdapters, h]
  decrypt_encrypt := by
    intro r p b w h w2
    simp only [memAdapters, Except.ok.injEq] at h
    subst h
    simp [memAdapters]

end Paths

/-! ## Policy rejections -/

section Theorems

variable {W Blob Account : Type}

/-- C1: with a passphrase shorter than 8 code units, whatever the confirmation,
both `handleCreateVault` and `handleUnlock` only raise the warning toast
"Password must be at least 8 characters": the rest of the state and the world are
untouched, the trace holds the toast timer alone, so no adapter is called and no
`onUnlock` hand-off is scheduled. -/
theorem short_passphrase_rejected (A : Adapters W Blob Account) (s : LoginState) (w : W)
    (h : jsLength s.password < 8) :
    handleCreateVault A s w =
        { ui := { s with toastMessage := "Password must be at least 8 characters",
                         toastType := "warning" },
          world := w,
          trace := [Event.setTimeout TimerAction.clearToast 3000] }
      ∧ handleUnlock A s w = handleCreateVault A s w
      ∧ adapterCalls (handleCreateVault A s w).trace = []
      ∧ adapterCalls (handleUnlock A s w).trace = []
      ∧ handoffs (handleCreateVault A s w).trace = []
      ∧ handoffs (handleUnlock A s w).trace = [] := by
  rw [unlock_too_short A s w h, create_too_short A s w h]
  simp [adapterCalls, handoffs, Event.isAdapterCall]

theorem short_passphrase_rejected_witness :
    jsLength (emptyForm "horse1" "battery").password < 8
      ∧ (handleCreateVault memAdapters (emptyForm "horse1" "battery") emptyWorld).ui.toastMessage
          = "Password must be at least 8 characters"
      ∧ adapterCalls (handleUnlock memAdapters (emptyForm "horse1" "battery") emptyWorld).trace
          = [] := by
  have h := short_passphrase_rejected memAdapters (emptyForm "horse1" "battery") emptyWorld
    (by decide)
  exact ⟨by decide, by rw [h.1], h.2.2.2.1⟩

/-- C2, as stated, fails: with passphrase `horse1` and confirmation `battery`,
which differ, `handleCreateVault` reports the length rejection, not
"Passwords do not match". -/
theorem mismatch_hidden_by_short_passphrase :
    (emptyForm "horse1" "battery").password ≠ (emptyForm "horse1" "battery").confirmPassword
      ∧ (handleCreateVault memAdapters (emptyForm "horse1" "battery") emptyWorld).ui.toastMessage
          ≠ "Passwords do not match"
      ∧ (handleCreateVault memAdapters (emptyForm "horse1" "battery") emptyWorld).ui.toastMessage
          = "Password must be at least 8 characters" := by
  decide

/-- C2, amended: when the passphrase differs from the confirmation,
`handleCreateVault` calls no adapter, schedules no hand-off and leaves the world
alone; and when the passphrase also has at least 8 code units it raises the error
toast "Passwords do not match" and changes nothing else. -/
theorem mismatch_rejected (A : Adapters W Blob Account) (s : LoginState) (w : W)
    (hne : s.password ≠ s.confirmPassword) :
    adapterCalls (handleCreateVault A s w).trace = []
      ∧ handoffs (handleCreateVault A s w).trace = []
      ∧ (handleCreateVault A s w).world = w
      ∧ (8 ≤ jsLength s.password →
          handleCreateVault A s w =
            { ui := { s with toastMessage := "Passwords do not match", toastType := "error" },
              world := w,
              trace := [Event.setTimeout TimerAction.clearToast 3000] }) := by
  by_cases h8 : 8 ≤ jsLength s.password
  · rw [create_mismatch A s w h8 hne]
    simp [adapterCalls, handoffs, Event.isAdapterCall]
  · rw [create_too_short A s w (by omega)]
    simp [adapterCalls, handoffs, Event.isAdapterCall, h8]

theorem mismatch_rejected_witness :
    (emptyForm "correcthorse1" "correcthorse2").password
        ≠ (emptyForm "correcthorse1" "correcthorse2").confirmPassword
      ∧ 8 ≤ jsLength (emptyForm "correcthorse1" "correcthorse2").password
      ∧ adapterCalls
          (handleCreateVault memAdapters (emptyForm "correcthorse1" "correcthorse2")
            emptyWorld).trace = []
      ∧ (handleCreateVault memAdapters (emptyForm "correcthorse1" "correcthorse2")
            emptyWorld).ui.toastMessage = "Passwords do not match" := by
  have h := mismatch_rejected memAdapters (emptyForm "correcthorse1" "correcthorse2") emptyWorld
    (by decide)
  exact ⟨by decide, by decide, h.1, by rw [h.2.2.2 (by decide)]⟩

/-! ## The creation protocol -/

/-- C3, as stated, fails: in the run that creates a vault with `correcthorse1` on
the reference adapters, all three adapter calls succeed, in the order
`encryptVault`, `saveVault`, `writeVaultHash`; so the `saveVault` call is not
preceded by a completed `writeVaultHash`. -/
theorem save_precedes_attest :
    adapterCalls
        (handleCreateVault memAdapters (emptyForm "correcthorse1" "correcthorse1")
          emptyWorld).trace
        = [Event.encryptVault { accounts := [] } "correcthorse1"
             (Except.ok { content := { accounts := [] }, key := "correcthorse1" }),
           Event.saveVault { content := { accounts := [] }, key := "correcthorse1" }
             (Except.ok ()),
           Event.writeVaultHash { content := { accounts := [] }, key := "correcthorse1" }
             (Except.ok ())]
      ∧ eachPrecededBy Event.attestedOk Event.isSave
          (handleCreateVault memAdapters (emptyForm "correcthorse1" "correcthorse1")
            emptyWorld).trace = false := by
  constructor
  · rfl
  · rfl

/-- C3, amended: in every run of `handleCreateVault`, for all adapter behaviours,
`saveVault` is called only after `encryptVault` has succeeded, and with the blob
`encryptVault` resolved to for the empty vault and the passphrase; and
`writeVaultHash` is called only after `saveVault` has succeeded, and on that same
blob: the integrity record is written after the vault is persisted, not before. -/
theorem save_only_after_encrypt (A : Adapters W Blob Account) (s : LoginState) (w : W) :
    eachPrecededBy Event.encryptedOk Event.isSave (handleCreateVault A s w).trace = true
      ∧ eachPrecededBy Event.savedOk Event.isAttest (handleCreateVault A s w).trace = true
      ∧ (∀ b r, Event.saveVault b r ∈ (handleCreateVault A s w).trace →
          Event.encryptVault { accounts := [] } s.password (Except.ok b)
            ∈ (handleCreateVault A s w).trace)
      ∧ (∀ b r, Event.writeVaultHash b r ∈ (handleCreateVault A s w).trace →
          Event.saveVault b (Except.ok ()) ∈ (handleCreateVault A s w).trace) := by
  by_cases h8 : 8 ≤ jsLength s.password
  · by_cases heq : s.password = s.confirmPassword
    · rcases he : A.encryptVault { accounts := [] } s.password w with ⟨r1, w1⟩
      cases r1 with
      | error e =>
        rw [create_encrypt_error A s w w1 e h8 heq he]
        simp [eachPrecededBy, precededFrom, Event.isSave, Event.isAttest]
      | ok b =>
        rcases hs : A.saveVault b w1 with ⟨r2, w2⟩
        cases r2 with
        | error e =>
          rw [create_save_error A s w w1 w2 e b h8 heq he hs]
          simp [eachPrecededBy, precededFrom, Event.isSave, Event.isAttest, Event.encryptedOk]
        | ok u =>
          rcases ha : A.writeVaultHash b w2 with ⟨r3, w3⟩
          cases r3 with
          | error e =>
            rw [create_attest_error A s w w1 w2 w3 e b h8 heq he hs ha]
            simp [eachPrecededBy, precededFrom, Event.isSave, Event.isAttest, Event.encryptedOk,
              Event.savedOk]
          | ok u2 =>
            rw [create_ok A s w w1 w2 w3 b h8 heq he hs ha]
            simp [eachPrecededBy, precededFrom, Event.isSave, Event.isAttest, Event.encryptedOk,
              Event.savedOk]
    · rw [create_mismatch A s w h8 heq]
      simp [eachPrecededBy, precededFrom, Event.isSave, Event.isAttest]
  · rw [create_too_short A s w (by omega)]
    simp [eachPrecededBy, precededFrom, Event.isSave, Event.isAttest]

/-- C4, as stated, fails: creating a vault with `correcthorse1` while the integrity
ledger rejects the write, `encryptVault` and `saveVault` succeed and the blob is
stored, yet no `onUnlock` hand-off is scheduled; the run ends with the error toast
"Creation failed: ledger offline". -/
theorem attest_failure_rejects :
    adapterCalls
        (handleCreateVault (attestFailing "ledger offline")
          (emptyForm "correcthorse1" "correcthorse1") emptyWorld).trace
        = [Event.encryptVault { accounts := [] } "correcthorse1"
             (Except.ok { content := { accounts := [] }, key := "correcthorse1" }),
           Event.saveVault { content := { accounts := [] }, key := "correcthorse1" }
             (Except.ok ()),
           Event.writeVaultHash { content := { accounts := [] }, key := "correcthorse1" }
             (Except.error { message := "ledger offline" })]
      ∧ handoffs
          (handleCreateVault (attestFailing "ledger offline")
            (emptyForm "correcthorse1" "correcthorse1") emptyWorld).trace = []
      ∧ (handleCreateVault (attestFailing "ledger offline")
            (emptyForm "correcthorse1" "correcthorse1") emptyWorld).ui.toastMessage
          = "Creation failed: ledger offline"
      ∧ (handleCreateVault (attestFailing "ledger offline")
            (emptyForm "correcthorse1" "correcthorse1") emptyWorld).world.stored
          = some { content := { accounts := [] }, key := "correcthorse1" } := by
  refine ⟨rfl, rfl, ?_, rfl⟩
  decide

/-- C4, amended: for a policy-valid passphrase, if `encryptVault` and `saveVault`
succeed and `writeVaultHash` rejects with an error, `handleCreateVault` ends in a
rejection: the error toast "Creation failed: " followed by the error's message,
the status "Create Master Password", `processing` cleared, and no `onUnlock`
hand-off scheduled; the blob has by then been handed to `saveVault`. -/
theorem attest_failure_is_creation_failure (A : Adapters W Blob Account) (s : LoginState)
    (w w1 w2 w3 : W) (b : Blob) (e : JsError)
    (h8 : 8 ≤ jsLength s.password) (heq : s.password = s.confirmPassword)
    (he : A.encryptVault { accounts := [] } s.password w = (Except.ok b, w1))
    (hs : A.saveVault b w1 = (Except.ok (), w2))
    (ha : A.writeVaultHash b w2 = (Except.error e, w3)) :
    (handleCreateVault A s w).ui =
        { s with processing := false, status := "Create Master Password",
                 toastMessage := "Creation failed: " ++ e.message, toastType := "error" }
      ∧ handoffs (handleCreateVault A s w).trace = []
      ∧ adapterCalls (handleCreateVault A s w).trace =
          [Event.encryptVault { accounts := [] } s.password (Except.ok b),
           Event.saveVault b (Except.ok ()),
           Event.writeVaultHash b (Except.error e)]
      ∧ (handleCreateVault A s w).world = w3 := by
  rw [create_attest_error A s w w1 w2 w3 e b h8 heq he hs ha]
  simp [adapterCalls, handoffs, Event.isAdapterCall]

theorem attest_failure_is_creation_failure_witness :
    8 ≤ jsLength (emptyForm "correcthorse1" "correcthorse1").password
      ∧ handoffs
          (handleCreateVault (attestFailing "ledger offline")
            (emptyForm "correcthorse1" "correcthorse1") emptyWorld).trace = []
      ∧ (handleCreateVault (attestFailing "ledger offline")
            (emptyForm "correcthorse1" "correcthorse1") emptyWorld).world
          = { stored := some { content := { accounts := [] }, key := "correcthorse1" },
              attested := none } :=
  have h := attest_failure_is_creation_failure (attestFailing "ledger offline")
    (emptyForm "correcthorse1" "correcthorse1") emptyWorld emptyWorld
    { stored := some { content := { accounts := [] }, key := "correcthorse1" }, attested := none }
    { stored := some { content := { accounts := [] }, key := "correcthorse1" }, attested := none }
    { content := { accounts := [] }, key := "correcthorse1" } { message := "ledger offline" }
    (by decide) rfl rfl rfl rfl
  ⟨by decide, h.2.1, h.2.2.2⟩

/-! ## The unlock protocol -/

/-- C5: for a passphrase of at least 8 code units, `handleUnlock` schedules the
hand-off `onUnlock(r, p)` if and only if `loadVault` resolved, `verifyVault` on the
loaded blob resolved to `true`, `decryptVault` on that blob and the submitted
passphrase resolved to `r`, and `p` is the submitted passphrase; a run schedules
at most one hand-off, so in every other case there is none. -/
theorem unlock_handoff_iff (A : Adapters W Blob Account) (s : LoginState) (w : W)
    (h8 : 8 ≤ jsLength s.password) (r : VaultRecord Account) (p : String) :
    ((r, p) ∈ handoffs (handleUnlock A s w).trace ↔
        ∃ blob w1 w2 w3,
          A.loadVault w = (Except.ok blob, w1)
            ∧ A.verifyVault blob w1 = (Except.ok true, w2)
            ∧ A.decryptVault blob s.password w2 = (Except.ok r, w3)
            ∧ p = s.password)
      ∧ (handoffs (handleUnlock A s w).trace).length ≤ 1 := by
  rcases hl : A.loadVault w with ⟨r1, w1⟩
  cases r1 with
  | error e =>
    rw [unlock_load_error A s w w1 e h8 hl]
    simp [handoffs]
  | ok blob =>
    rcases hv : A.verifyVault blob w1 with ⟨r2, w2⟩
    cases r2 with
    | error e =>
      rw [unlock_verify_error A s w w1 w2 e blob h8 hl hv]
      simp [handoffs, hv]
    | ok verified =>
      cases verified with
      | false =>
        rw [unlock_verify_false A s w w1 w2 blob h8 hl hv]
        simp [handoffs, hv]
      | true =>
        rcases hd : A.decryptVault blob s.password w2 with ⟨r3, w3⟩
        cases r3 with
        | error e =>
          rw [unlock_decrypt_error A s w w1 w2 w3 e blob h8 hl hv hd]
          simp [handoffs, hv, hd]
        | ok decrypted =>
          rw [unlock_ok A s w w1 w2 w3 decrypted blob h8 hl hv hd]
          refine ⟨?_, by simp [handoffs]⟩
          constructor
          · intro hmem
            simp [handoffs] at hmem
            exact ⟨blob, w1, w2, w3, rfl, hv, by rw [hd, hmem.1], hmem.2⟩
          · rintro ⟨blob2, v1, v2, v3, h1, h2, h3, h4⟩
            simp only [Prod.mk.injEq, Except.ok.injEq] at h1
            obtain ⟨hb, hw⟩ := h1
            subst hb hw
            rw [hv] at h2
            simp only [Prod.mk.injEq, true_and] at h2
            subst h2
            rw [hd] at h3
            simp only [Prod.mk.injEq, Except.ok.injEq] at h3
            simp [handoffs, h3.1, h4]

theorem unlock_handoff_iff_witness :
    8 ≤ jsLength (lockedForm "correcthorse1").password
      ∧ (({ accounts := [] }, "correcthorse1")
          ∈ handoffs (handleUnlock memAdapters (lockedForm "correcthorse1") vaultWorld).trace)
      ∧ handoffs (handleUnlock memAdapters (lockedForm "correcthorse2") vaultWorld).trace
          = [] := by
  refine ⟨by decide, ?_, rfl⟩
  exact ((unlock_handoff_iff memAdapters (lockedForm "correcthorse1") vaultWorld (by decide)
    { accounts := [] } "correcthorse1").1).2
    ⟨some { content := { accounts := [] }, key := "correcthorse1" }, vaultWorld, vaultWorld,
      vaultWorld, rfl, rfl, rfl, rfl⟩

/-- C6: start two unlock runs from the same form with passphrases of at least 8
code units, over any adapters and worlds. In the first `loadVault` resolves and
`verifyVault` resolves to `false` or rejects; in the second `verifyVault`
resolves to `true` and `decryptVault` rejects. Both leave the same state and the
same timers: the error toast "Wrong password", the status "Unlock your Vault",
the password field emptied, `processing` cleared, `vaultExists` as before, one
toast timer and no hand-off, whatever error the adapter raised. -/
theorem auth_failures_indistinguishable {W1 W2 Blob1 Blob2 : Type}
    (A1 : Adapters W1 Blob1 Account) (A2 : Adapters W2 Blob2 Account)
    (s : LoginState) (p1 p2 : String) (w1 : W1) (w2 : W2)
    (h1 : 8 ≤ jsLength p1) (h2 : 8 ≤ jsLength p2)
    (hfail1 : ∃ blob wa wb, A1.loadVault w1 = (Except.ok blob, wa)
      ∧ (A1.verifyVault blob wa = (Except.ok false, wb)
          ∨ ∃ e, A1.verifyVault blob wa = (Except.error e, wb)))
    (hfail2 : ∃ blob wa wb wc e, A2.loadVault w2 = (Except.ok blob, wa)
      ∧ A2.verifyVault blob wa = (Except.ok true, wb)
      ∧ A2.decryptVault blob p2 wb = (Except.error e, wc)) :
    visible (handleUnlock A1 (typePassword p1 s) w1)
        = visible (handleUnlock A2 (typePassword p2 s) w2)
      ∧ visible (handleUnlock A1 (typePassword p1 s) w1)
        = ({ s with processing := false, status := "Unlock your Vault", password := "",
                    toastMessage := "Wrong password", toastType := "error" },
           [(TimerAction.clearToast, 3000)])
      ∧ (handleUnlock A1 (typePassword p1 s) w1).ui.vaultExists = s.vaultExists
      ∧ (handleUnlock A2 (typePassword p2 s) w2).ui.vaultExists = s.vaultExists := by
  obtain ⟨blob, wa, wb, hl, hv⟩ := hfail1
  obtain ⟨blob2, va, vb, vc, e2, hl2, hv2, hd2⟩ := hfail2
  have h1s : 8 ≤ jsLength (typePassword p1 s).password := h1
  have h2s : 8 ≤ jsLength (typePassword p2 s).password := h2
  rw [unlock_decrypt_error A2 (typePassword p2 s) w2 va vb vc e2 blob2 h2s hl2 hv2 hd2]
  rcases hv with hv | ⟨e, hv⟩
  · rw [unlock_verify_false A1 (typePassword p1 s) w1 wa wb blob h1s hl hv]
    simp [visible, timers, typePassword]
  · rw [unlock_verify_error A1 (typePassword p1 s) w1 wa wb e blob h1s hl hv]
    simp [visible, timers, typePassword]

theorem auth_failures_indistinguishable_witness :
    visible (handleUnlock memAdapters (typePassword "correcthorse1" (lockedForm "")) tamperedWorld)
      = visible (handleUnlock memAdapters (typePassword "correcthorse2" (lockedForm ""))
          vaultWorld) :=
  (auth_failures_indistinguishable memAdapters memAdapters (lockedForm "") "correcthorse1"
    "correcthorse2" tamperedWorld vaultWorld (by decide) (by decide)
    ⟨tamperedWorld.stored, tamperedWorld, tamperedWorld, rfl, Or.inl rfl⟩
    ⟨vaultWorld.stored, vaultWorld, vaultWorld, vaultWorld, { message := "OperationError" },
      rfl, rfl, rfl⟩).1

/-- C7, as stated, fails: an unlock whose `loadVault` rejects with
"QuotaExceededError" leaves exactly the state and timers of an unlock on a
tampered blob with the same passphrase: the toast is "Wrong password" and the
adapter's message is nowhere in the result. -/
theorem load_failure_looks_like_wrong_password :
    visible (handleUnlock (loadFailing "QuotaExceededError") (lockedForm "correcthorse1")
        vaultWorld)
        = visible (handleUnlock memAdapters (lockedForm "correcthorse1") tamperedWorld)
      ∧ (handleUnlock (loadFailing "QuotaExceededError") (lockedForm "correcthorse1")
          vaultWorld).ui
        = { lockedForm "correcthorse1" with
              processing := false, status := "Unlock your Vault", password := "",
              toastMessage := "Wrong password", toastType := "error" } := by
  constructor
  · rfl
  · rfl

/-- C7, amended: for a passphrase of at least 8 code units, if `loadVault` rejects
during `handleUnlock`, no other adapter is called and the run ends as every failed
unlock does: the error toast "Wrong password", the status "Unlock your Vault",
the password field emptied, `processing` cleared and `vaultExists` unchanged; the
adapter's error appears in the trace of the call only, not in the state. -/
theorem load_failure_is_wrong_password (A : Adapters W Blob Account) (s : LoginState)
    (w w1 : W) (e : JsError) (h8 : 8 ≤ jsLength s.password)
    (hl : A.loadVault w = (Except.error e, w1)) :
    visible (handleUnlock A s w)
        = ({ s with processing := false, status := "Unlock your Vault", password := "",
                    toastMessage := "Wrong password", toastType := "error" },
           [(TimerAction.clearToast, 3000)])
      ∧ adapterCalls (handleUnlock A s w).trace = [Event.loadVault (Except.error e)]
      ∧ (handleUnlock A s w).ui.vaultExists = s.vaultExists
      ∧ (handleUnlock A s w).world = w1 := by
  rw [unlock_load_error A s w w1 e h8 hl]
  simp [visible, timers, adapterCalls, Event.isAdapterCall]

theorem load_failure_is_wrong_password_witness :
    8 ≤ jsLength (lockedForm "correcthorse1").password
      ∧ (visible (handleUnlock (loadFailing "QuotaExceededError") (lockedForm "correcthorse1")
          vaultWorld)).1.toastMessage = "Wrong password" := by
  have h := load_failure_is_wrong_password (loadFailing "QuotaExceededError")
    (lockedForm "correcthorse1") vaultWorld vaultWorld { message := "QuotaExceededError" }
    (by decide) rfl
  exact ⟨by decide, by rw [h.1]⟩

/-! ## Start-up and the action button -/

/-- C9, as stated, fails: when `loadVault` rejects, `init` leaves `vaultExists` at
its initial `false` and ends loading, so the form resolves to create mode, the
mode of an empty store: heading "New Vault", button "create", and `handleAuth`
dispatching to `handleCreateVault`, here although the store holds a vault. -/
theorem init_failure_resolves_to_create_mode :
    vaultWorld.stored ≠ none
      ∧ mode (init (loadFailing "QuotaExceededError") initialState vaultWorld).ui = Mode.empty
      ∧ (init (loadFailing "QuotaExceededError") initialState vaultWorld).ui
          = { (init memAdapters initialState emptyWorld).ui with
                status := "Something went wrong" }
      ∧ (render (init (loadFailing "QuotaExceededError") initialState vaultWorld).ui).map
            (fun v => (v.title, v.actionLabel)) = some ("New Vault", "create")
      ∧ handleAuth memAdapters
            (init (loadFailing "QuotaExceededError") initialState vaultWorld).ui vaultWorld
          = handleCreateVault memAdapters
              (init (loadFailing "QuotaExceededError") initialState vaultWorld).ui
              vaultWorld := by
  refine ⟨by decide, by decide, by decide, by decide, rfl⟩

/-- C9, amended: `init` makes exactly one adapter call, a `loadVault`, and no
crypto or integrity call; the world is the one `loadVault` returns. When
`loadVault` resolves to no blob the result is `vaultExists = false` with status
"Create your first vault"; when it resolves to a blob, `vaultExists = true` with
status "Welcome back!"; when it rejects, the status is "Something went wrong" and
`vaultExists` keeps its value. In each case `loading` ends. Started from the
initial hook values, the form so resolves to unlock mode when a blob was loaded
and to create mode otherwise, a rejected load included. -/
theorem init_once_and_resolves (A : Adapters W Blob Account) (s : LoginState) (w : W) :
    (init A s w).trace = [Event.loadVault (A.loadVault w).1]
      ∧ adapterCalls (init A s w).trace = [Event.loadVault (A.loadVault w).1]
      ∧ (init A s w).world = (A.loadVault w).2
      ∧ (init A s w).ui =
          (match (A.loadVault w).1 with
           | Except.ok (some _) =>
             { s with vaultExists := true, status := "Welcome back!", loading := false }
           | Except.ok none =>
             { s with vaultExists := false, status := "Create your first vault",
                      loading := false }
           | Except.error _ => { s with status := "Something went wrong", loading := false })
      ∧ mode (init A initialState w).ui =
          (match (A.loadVault w).1 with
           | Except.ok (some _) => Mode.locked
           | Except.ok none => Mode.empty
           | Except.error _ => Mode.empty) := by
  rcases hl : A.loadVault w with ⟨r, w1⟩
  cases r with
  | error e =>
    rw [init_rejected A s w w1 e hl, init_rejected A initialState w w1 e hl]
    simp [adapterCalls, Event.isAdapterCall, mode, initialState]
  | ok vault =>
    rw [init_resolved A s w w1 vault hl, init_resolved A initialState w w1 vault hl]
    cases vault <;> simp [adapterCalls, Event.isAdapterCall, mode, initialState]

/-- C10, as stated, fails: in the form of an unlock in flight (`processing` set),
`handleAuth` reports nothing like an operation in progress; it runs a second
unlock protocol, calling `loadVault`, `verifyVault` and `decryptVault` and
scheduling a hand-off. -/
theorem handleAuth_runs_while_processing :
    (unlockingForm "correcthorse1").processing = true
      ∧ adapterCalls (handleAuth memAdapters (unlockingForm "correcthorse1") vaultWorld).trace
          = [Event.loadVault (Except.ok vaultWorld.stored),
             Event.verifyVault vaultWorld.stored (Except.ok true),
             Event.decryptVault vaultWorld.stored "correcthorse1"
               (Except.ok { accounts := [] })]
      ∧ handoffs (handleAuth memAdapters (unlockingForm "correcthorse1") vaultWorld).trace
          = [({ accounts := [] }, "correcthorse1")]
      ∧ (handleAuth memAdapters (unlockingForm "correcthorse1") vaultWorld).ui.toastMessage
          = "Vault unlocked!" := by
  refine ⟨rfl, rfl, rfl, ?_⟩
  decide

/-- C10, amended: while `processing` is set the action button is rendered disabled
(or, while loading, not rendered), so a click on it does not reach `handleAuth`:
it calls no adapter, starts no protocol and changes neither the state nor the
world, which leaves the run in flight undisturbed; no rejection is reported. -/
theorem click_ignored_while_processing (A : Adapters W Blob Account) (s : LoginState) (w : W)
    (hp : s.processing = true) :
    clickAction A s w = { ui := s, world := w, trace := [] }
      ∧ adapterCalls (clickAction A s w).trace = []
      ∧ handoffs (clickAction A s w).trace = []
      ∧ (∀ v, render s = some v →
          v.actionDisabled = true ∧ v.inputsDisabled = true ∧ v.toggleShown = false
            ∧ v.actionLabel = "please wait...") := by
  have hc : clickAction A s w = { ui := s, world := w, trace := [] } := by
    unfold clickAction render
    by_cases hl : s.loading = true
    · simp [hl]
    · simp [hl, hp]
  refine ⟨hc, ?_, ?_, ?_⟩
  · rw [hc]
    rfl
  · rw [hc]
    rfl
  · intro v hv
    unfold render at hv
    by_cases hl : s.loading = true
    · simp [hl] at hv
    · simp only [hl, hp] at hv
      simp at hv
      subst hv
      simp

theorem click_ignored_while_processing_witness :
    (unlockingForm "correcthorse1").processing = true
      ∧ clickAction memAdapters (unlockingForm "correcthorse1") vaultWorld
          = { ui := unlockingForm "correcthorse1", world := vaultWorld, trace := [] } :=
  ⟨rfl, (click_ignored_while_processing memAdapters (unlockingForm "correcthorse1") vaultWorld
    rfl).1⟩

/-! ## Creation round trip -/

/-- C8: over adapters that behave consistently, for every passphrase `p` of at
least 8 code units: if `handleCreateVault` with `p` typed in both fields succeeds
(it schedules the hand-off of the empty vault and `p`), then a fresh component
over the resulting world resolves, by `init`, to unlock mode (`vaultExists = true`,
status "Welcome back!", loading ended), and submitting `p` there schedules exactly
one hand-off, of the vault record with no account (`{ accounts: [] }`) and `p`. -/
theorem creation_round_trip (A : Adapters W Blob Account) (stored attested : W → Option Blob)
    (hA : Consistent A stored attested) (s : LoginState) (w : W) (p : String)
    (h8 : 8 ≤ jsLength p)
    (hok : handoffs (handleCreateVault A (typeConfirmPassword p (typePassword p s)) w).trace
      = [({ accounts := [] }, p)]) :
    (reopen A (handleCreateVault A (typeConfirmPassword p (typePassword p s)) w)).ui
        = { initialState with vaultExists := true, status := "Welcome back!", loading := false }
      ∧ mode (reopen A (handleCreateVault A (typeConfirmPassword p (typePassword p s)) w)).ui
        = Mode.locked
      ∧ handoffs
          (resubmit A p
            (reopen A (handleCreateVault A (typeConfirmPassword p (typePassword p s)) w))).trace
        = [({ accounts := [] }, p)]
      ∧ (resubmit A p
            (reopen A
              (handleCreateVault A (typeConfirmPassword p (typePassword p s)) w))).ui.toastMessage
        = "Vault unlocked!" := by
  have h8s : 8 ≤ jsLength (typeConfirmPassword p (typePassword p s)).password := h8
  have heq : (typeConfirmPassword p (typePassword p s)).password
      = (typeConfirmPassword p (typePassword p s)).confirmPassword := rfl
  have hpw : (typeConfirmPassword p (typePassword p s)).password = p := rfl
  rcases he : A.encryptVault { accounts := [] } p w with ⟨r1, w1⟩
  cases r1 with
  | error e =>
    rw [create_encrypt_error A _ w w1 e h8s heq (by rw [hpw]; exact he)] at hok
    simp [handoffs] at hok
  | ok b =>
    rcases hs : A.saveVault b w1 with ⟨r2, w2⟩
    cases r2 with
    | error e =>
      rw [create_save_error A _ w w1 w2 e b h8s heq (by rw [hpw]; exact he) hs] at hok
      simp [handoffs] at hok
    | ok u =>
      rcases ha : A.writeVaultHash b w2 with ⟨r3, w3⟩
      cases r3 with
      | error e =>
        rw [create_attest_error A _ w w1 w2 w3 e b h8s heq (by rw [hpw]; exact he) hs ha] at hok
        simp [handoffs] at hok
      | ok u2 =>
        rw [create_ok A _ w w1 w2 w3 b h8s heq (by rw [hpw]; exact he) hs ha]
        -- what storage and the ledger hold once creation is over
        have hst2 : stored w2 = some b := by
          have h := hA.save_stored b w1 (by rw [hs])
          rwa [hs] at h
        have hst3 : stored w3 = some b := by
          have h := hA.attest_frame b w2
          rw [ha] at h
          exact h.trans hst2
        have hat3 : attested w3 = some b := by
          have h := hA.attest_attested b w2 (by rw [ha])
          rwa [ha] at h
        -- the fresh component's `init`
        have hl3 : A.loadVault w3 = (Except.ok (some b), (A.loadVault w3).2) :=
          Prod.ext (by rw [hA.load_stored w3, hst3]) rfl
        have hst4 : stored (A.loadVault w3).2 = some b := ((hA.load_frame w3).1).trans hst3
        have hat4 : attested (A.loadVault w3).2 = some b := ((hA.load_frame w3).2).trans hat3
        -- the unlock that follows
        have hl4 : A.loadVault (A.loadVault w3).2
            = (Except.ok (some b), (A.loadVault (A.loadVault w3).2).2) :=
          Prod.ext (by rw [hA.load_stored, hst4]) rfl
        have hat5 : attested (A.loadVault (A.loadVault w3).2).2 = some b :=
          ((hA.load_frame _).2).trans hat4
        have hv : A.verifyVault (some b) (A.loadVault (A.loadVault w3).2).2
            = (Except.ok true, (A.verifyVault (some b) (A.loadVault (A.loadVault w3).2).2).2) :=
          Prod.ext (hA.verify_attested b _ hat5) rfl
        have hd : A.decryptVault (some b) p
              (A.verifyVault (some b) (A.loadVault (A.loadVault w3).2).2).2
            = (Except.ok { accounts := [] },
                (A.decryptVault (some b) p
                  (A.verifyVault (some b) (A.loadVault (A.loadVault w3).2).2).2).2) :=
          Prod.ext (hA.decrypt_encrypt { accounts := [] } p b w (by rw [he]) _) rfl
        have hre : reopen A
            ({ ui := { typeConfirmPassword p (typePassword p s) with
                         processing := false, status := "Setting things up...",
                         toastMessage := "Vault created successfully!",
                         toastType := "success" },
               world := w3,
               trace := [Event.encryptVault { accounts := [] }
                           (typeConfirmPassword p (typePassword p s)).password (Except.ok b),
                         Event.saveVault b (Except.ok ()),
                         Event.writeVaultHash b (Except.ok ()),
                         Event.setTimeout TimerAction.clearToast 3000,
                         Event.setTimeout
                           (TimerAction.onUnlock { accounts := [] }
                             (typeConfirmPassword p (typePassword p s)).password) 800] } :
              Sys W Blob Account)
            = { ui := { initialState with vaultExists := true, status := "Welcome back!",
                                          loading := false },
                world := (A.loadVault w3).2,
                trace := [Event.loadVault (Except.ok (some b))] } := by
          unfold reopen
          rw [init_resolved A initialState w3 _ (some b) hl3]
          simp
        rw [hre]
        have hun : resubmit A p
            ({ ui := { initialState with vaultExists := true, status := "Welcome back!",
                                         loading := false },
               world := (A.loadVault w3).2,
               trace := [Event.loadVault (Except.ok (some b))] } : Sys W Blob Account)
            = handleUnlock A
                (typePassword p
                  { initialState with vaultExists := true, status := "Welcome back!",
                                      loading := false })
                (A.loadVault w3).2 := by
          simp [resubmit, handleAuth, typePassword]
        rw [hun, unlock_ok A _ _ _ _ _ { accounts := [] } (some b) h8 hl4 hv hd]
        simp [mode, handoffs, typePassword]

theorem creation_round_trip_witness :
    8 ≤ jsLength "correcthorse1"
      ∧ mode (reopen memAdapters
          (handleCreateVault memAdapters (emptyForm "correcthorse1" "correcthorse1")
            emptyWorld)).ui = Mode.locked
      ∧ handoffs
          (resubmit memAdapters "correcthorse1"
            (reopen memAdapters
              (handleCreateVault memAdapters (emptyForm "correcthorse1" "correcthorse1")
                emptyWorld))).trace
        = [({ accounts := [] }, "correcthorse1")] :=
  have h := creation_round_trip memAdapters MemWorld.stored MemWorld.attested
    memAdapters_consistent (init memAdapters initialState emptyWorld).ui emptyWorld
    "correcthorse1" (by decide) rfl
  ⟨by decide, h.2.1, h.2.2.1⟩

end Theorems

end Guardium
